import Mathlib

/-!
Verification of the article/comment/media content-mutation core implemented in
`src/src/main.rs`. The Rust handlers (`submit_article`, `submit_comment`,
`delete_article`, `delete_comment`, `edit_article`, `view_article`, ...) are
embedded shallowly: the Postgres tables become lists of rows in a `DB` record,
the upload directory becomes a list of file paths, each `sqlx` query becomes a
pure state transformer, and every fallible database call takes an explicit
Boolean success flag so that injected failures model database errors. Multipart
request bodies are modelled as the ordered list of already-decoded fields
(name, optional filename from the content disposition, payload as a string),
matching the granularity at which the handlers consume them.

The repository contains no database schema. Where a claim depends on schema
behaviour (foreign keys from `article_media.article_id` and
`comments.article_id` to `articles.id`, and cascade on article deletion) the
behaviour is modelled from the spec; the definitions concerned say so in their
doc comments.
-/

namespace Articles

/-- One decoded multipart form field: the field name from the content
disposition, the optional filename, and the payload (the Rust code decodes the
bytes with `String::from_utf8(value).unwrap_or_default()`; we model payloads
directly as strings). -/
structure Field where
  name : String
  filename : Option String
  value : String
deriving DecidableEq

/-- A row of the `articles` table (mirrors `struct DbArticle` in main.rs). -/
structure DbArticle where
  id : Int
  title : String
  body : String
  bump_time : Int
deriving DecidableEq

/-- A row of the `article_media` table: `(article_id, media_path)`. -/
structure MediaRow where
  article_id : Int
  media_path : String
deriving DecidableEq

/-- A row of the `comments` table: `(id, article_id, comment)`. -/
structure CommentRow where
  id : Int
  article_id : Int
  comment : String
deriving DecidableEq

/-- The relational store: the three tables used by main.rs, plus the id
sequences that `RETURNING id` / serial columns draw from. -/
structure DB where
  articles : List DbArticle
  article_media : List MediaRow
  comments : List CommentRow
  nextArticleId : Int
  nextCommentId : Int
deriving DecidableEq

/-- World state around one request: the database, the set of files present in
the `./uploads` directory (as the list of their paths), and the current clock
value that `Utc::now().timestamp()` reads during the request. -/
structure World where
  db : DB
  files : List String
  now : Int
deriving DecidableEq

/-- Mirrors `const ADMIN_PASSWORD: &str = "changeme";` (main.rs line 15). -/
def ADMIN_PASSWORD : String := "changeme"

/-- Existence query `SELECT ... FROM articles WHERE id = $1`. -/
def DB.articleExists (db : DB) (aid : Int) : Bool :=
  db.articles.any (fun a => a.id == aid)

/-- Query `SELECT id, title, body, bump_time FROM articles WHERE id = $1`
(first matching row, as `fetch_one`/`fetch_optional` see it). -/
def DB.findArticle (db : DB) (aid : Int) : Option DbArticle :=
  db.articles.find? (fun a => a.id == aid)

/-- Query `SELECT media_path FROM article_media WHERE article_id = $1`. -/
def DB.mediaFor (db : DB) (aid : Int) : List String :=
  (db.article_media.filter (fun m => m.article_id == aid)).map (fun m => m.media_path)

/-- Query `SELECT id, comment FROM comments WHERE article_id = $1`. -/
def DB.commentsFor (db : DB) (aid : Int) : List CommentRow :=
  db.comments.filter (fun c => c.article_id == aid)

/-- Referential integrity of the store: every media row and every comment row
points at an existing article. -/
def DB.noOrphans (db : DB) : Prop :=
  (∀ m ∈ db.article_media, db.articleExists m.article_id = true) ∧
  (∀ c ∈ db.comments, db.articleExists c.article_id = true)

instance (db : DB) : Decidable db.noOrphans := by
  unfold DB.noOrphans; infer_instance

/-! ## The sanitize-filename dependency

`submit_article` and `edit_article` store uploads at
`format!("./uploads/article_{}", sanitize(&fname))`. `sanitize` is
`sanitize_filename::sanitize`, embedded here from that crate's implementation
with its default options on a non-Windows target (replacement string `""`,
`truncate = true`, `windows = false`): illegal characters
`/ ? < > \ : * | "` and control characters (0x00-0x1f, 0x80-0x9f) are removed,
a name consisting solely of dots is replaced by the empty string, and the
result is truncated to at most 255 bytes on a character boundary. -/

/-- Characters matched by the crate's `ILLEGAL_RE`. -/
def isIllegalChar (c : Char) : Bool :=
  c == '/' || c == '?' || c == '<' || c == '>' || c == '\\' ||
  c == ':' || c == '*' || c == '|' || c == '"'

/-- Characters matched by the crate's `CONTROL_RE` (`[\x00-\x1f\x80-\x9f]`). -/
def isControlChar (c : Char) : Bool :=
  c.toNat ≤ 0x1f || (0x80 ≤ c.toNat && c.toNat ≤ 0x9f)

/-- Longest prefix of the character list whose UTF-8 byte length fits in the
budget — the crate's truncation to 255 bytes at a character boundary. -/
def truncateBytes : Nat → List Char → List Char
  | _, [] => []
  | budget, c :: cs =>
    if c.utf8Size ≤ budget then c :: truncateBytes (budget - c.utf8Size) cs else []

/-- Embeds `sanitize_filename::sanitize` with default options on a non-Windows
target. -/
def sanitize (name : String) : String :=
  let filtered := name.data.filter (fun c => !(isIllegalChar c || isControlChar c))
  let reserved := if filtered ≠ [] ∧ filtered.all (fun c => c == '.') then [] else filtered
  ⟨truncateBytes 255 reserved⟩

/-- The stored media reference recorded in the database and echoed in pages:
`format!("/uploads/article_{}", sanitized_filename)`. -/
def storedMediaRef (fname : String) : String :=
  "/uploads/article_" ++ sanitize fname

/-- The on-disk path the upload is written to:
`format!("./uploads/article_{}", sanitized_filename)`. -/
def uploadDiskPath (fname : String) : String :=
  "./uploads/article_" ++ sanitize fname

/-- Models `File::create` + `write_all`: afterwards the path exists in the uploads
directory (creating the file anew or overwriting an earlier one). -/
def writeFile (w : World) (path : String) : World :=
  { w with files := if path ∈ w.files then w.files else w.files ++ [path] }

/-! ## Responses

The handlers produce `HttpResponse` values (or actix `Error`s that the
framework renders as 500 responses). We record the status and, for the error
statuses the claims distinguish, the response body the code attaches. Bodies of
successful HTML pages are rendering concerns and are elided. -/

/-- Outcome of one request. `found` carries the `Location` header; the error
constructors carry the body string the handler attaches (the
`ErrorInternalServerError(...)` messages included). -/
inductive HResp where
  | ok : HResp
  | found (location : String) : HResp
  | badRequest (body : String) : HResp
  | unauthorized (body : String) : HResp
  | notFound (body : String) : HResp
  | internalError (body : String) : HResp
deriving DecidableEq

/-! ## Row-level query models

Each `sqlx` statement of main.rs becomes one pure function. The repository
ships no schema; foreign-key enforcement and cascade behaviour are modelled
from the spec where noted. -/

/-- Statement `INSERT INTO articles (title, body, bump_time) VALUES ($1,$2,$3) RETURNING id`. -/
def DB.insertArticle (db : DB) (title body : String) (bump : Int) : Int × DB :=
  (db.nextArticleId,
   { db with
      articles := db.articles ++ [⟨db.nextArticleId, title, body, bump⟩],
      nextArticleId := db.nextArticleId + 1 })

/-- Statement `INSERT INTO article_media (article_id, media_path) VALUES ($1,$2)`.
Modelled from the spec: the schema (absent from src/) is taken to enforce the
foreign key `article_media.article_id REFERENCES articles(id)` (§3's orphan
invariant), so the insert fails (`none`) when the article does not exist. -/
def DB.insertMedia (db : DB) (aid : Int) (path : String) : Option DB :=
  if db.articleExists aid then
    some { db with article_media := db.article_media ++ [⟨aid, path⟩] }
  else none

/-- Statement `INSERT INTO comments (article_id, comment) VALUES ($1,$2)`.
Modelled from the spec: the schema (absent from src/) is taken to enforce the
foreign key `comments.article_id REFERENCES articles(id)` (§3's orphan
invariant and §4.3), so the insert fails (`none`) when the article does not
exist. -/
def DB.insertComment (db : DB) (aid : Int) (text : String) : Option DB :=
  if db.articleExists aid then
    some { db with
            comments := db.comments ++ [⟨db.nextCommentId, aid, text⟩],
            nextCommentId := db.nextCommentId + 1 }
  else none

/-- Statement `UPDATE articles SET bump_time = $1 WHERE id = $2`. -/
def DB.bumpArticle (db : DB) (aid : Int) (bump : Int) : DB :=
  { db with articles := db.articles.map (fun a =>
      if a.id == aid then { a with bump_time := bump } else a) }

/-- Statement `UPDATE articles SET title = $1, body = $2, bump_time = $3 WHERE id = $4`. -/
def DB.updateArticle (db : DB) (aid : Int) (title body : String) (bump : Int) : DB :=
  { db with articles := db.articles.map (fun a =>
      if a.id == aid then { a with title := title, body := body, bump_time := bump } else a) }

/-- Statement `DELETE FROM articles WHERE id = $1`.
Modelled from the spec: the schema is absent from src/ and §4.2 specifies that
article deletion cascades, so the foreign keys carry `ON DELETE CASCADE` and
the delete also removes the article's media rows and comment rows. -/
def DB.deleteArticleCascade (db : DB) (aid : Int) : DB :=
  { db with
      articles := db.articles.filter (fun a => !(a.id == aid)),
      article_media := db.article_media.filter (fun m => !(m.article_id == aid)),
      comments := db.comments.filter (fun c => !(c.article_id == aid)) }

/-- Statement `DELETE FROM article_media WHERE article_id = $1`. -/
def DB.deleteMediaFor (db : DB) (aid : Int) : DB :=
  { db with article_media := db.article_media.filter (fun m => !(m.article_id == aid)) }

/-- Statement `DELETE FROM comments WHERE id = $1`. -/
def DB.deleteComment (db : DB) (cid : Int) : DB :=
  { db with comments := db.comments.filter (fun c => !(c.id == cid)) }

/-! ## Multipart folds

The `while let Some(item) = payload.next().await` loops of `submit_article`
and `edit_article`, folded over the decoded field list in request order. -/

/-- Accumulator of `submit_article`'s multipart loop: `title`, `body` and
`media_paths` start as empty (`String::new()` / `Vec::new()`). -/
structure SubmitAcc where
  title : String
  body : String
  media_paths : List String
deriving DecidableEq

/-- The multipart loop of `submit_article` (main.rs lines 150-204): `title`
and `body` fields overwrite the accumulator; a `media` field with a filename
writes the uploaded bytes to `./uploads/article_{sanitized}` and records the
stored reference. Note the loop pushes a media path whenever a filename is
present, with no check that the payload is non-empty. -/
def submitFold : List Field → SubmitAcc → World → SubmitAcc × World
  | [], acc, w => (acc, w)
  | f :: fs, acc, w =>
    if f.name = "title" then submitFold fs { acc with title := f.value } w
    else if f.name = "body" then submitFold fs { acc with body := f.value } w
    else if f.name = "media" then
      match f.filename with
      | some fname =>
          submitFold fs
            { acc with media_paths := acc.media_paths ++ [storedMediaRef fname] }
            (writeFile w (uploadDiskPath fname))
      | none => submitFold fs acc w
    else submitFold fs acc w

/-- Accumulator of `edit_article`'s multipart loop. -/
structure EditAcc where
  password : String
  mode : String
  title : String
  body : String
  newMedia : Option String
deriving DecidableEq

/-- The multipart loop of `edit_article` (main.rs lines 558-614): `password`,
`mode`, `title`, `body` fields overwrite the accumulator; a `media` field is
processed only when its payload is non-empty (`!value.is_empty()`) and carries
a filename, in which case the bytes are written to
`./uploads/article_{sanitized}` and the stored reference is remembered. -/
def editFold : List Field → EditAcc → World → EditAcc × World
  | [], acc, w => (acc, w)
  | f :: fs, acc, w =>
    if f.name = "password" then editFold fs { acc with password := f.value } w
    else if f.name = "mode" then editFold fs { acc with mode := f.value } w
    else if f.name = "title" then editFold fs { acc with title := f.value } w
    else if f.name = "body" then editFold fs { acc with body := f.value } w
    else if f.name = "media" ∧ f.value ≠ "" then
      match f.filename with
      | some fname =>
          editFold fs { acc with newMedia := some (storedMediaRef fname) }
            (writeFile w (uploadDiskPath fname))
      | none => editFold fs acc w
    else editFold fs acc w

/-- Parse phase of `submit_article`, from the initial empty accumulator. -/
def parseSubmit (fields : List Field) (w : World) : SubmitAcc × World :=
  submitFold fields ⟨"", "", []⟩ w

/-- Parse phase of `edit_article`, from the initial empty accumulator. -/
def parseEdit (fields : List Field) (w : World) : EditAcc × World :=
  editFold fields ⟨"", "", "", "", none⟩ w

/-! ## Handlers

One function per Rust handler. Every fallible database statement takes a
Boolean flag: `true` means the underlying store executes it (constraint
violations can still fail it), `false` injects a database error, which the
handler maps to the same response the corresponding `map_err`/`Err` arm
produces. -/

/-- The `for path in media_paths` insert loop of `submit_article` (main.rs
lines 225-235): on the first failed insert the handler returns the 500
response, keeping the rows already inserted. Each insert consumes one entry of
the injected outcome list (exhausted entries default to success). -/
def insertMediaLoop (aid : Int) : List String → List Bool → World → HResp × World
  | [], _, w => (HResp.found "/articles", w)
  | path :: rest, oks, w =>
    if oks.headD true then
      match w.db.insertMedia aid path with
      | some db1 => insertMediaLoop aid rest oks.tail { w with db := db1 }
      | none => (HResp.internalError "Failed to store media", w)
    else (HResp.internalError "Failed to store media", w)

/-- Embeds `submit_article` after its multipart loop (main.rs lines 206-239):
reject the request when no media path was collected, then insert the article
row and one media row per path. `artOk` injects the article `INSERT`'s
outcome; `mediaOks` supplies one outcome per media `INSERT`. -/
def submitDispatch (w1 : World) (acc : SubmitAcc) (artOk : Bool)
    (mediaOks : List Bool) : HResp × World :=
  if acc.media_paths.isEmpty then
    (HResp.badRequest "Media file is required", w1)
  else if artOk then
    insertMediaLoop (w1.db.insertArticle acc.title acc.body w1.now).1
      acc.media_paths mediaOks
      { w1 with db := (w1.db.insertArticle acc.title acc.body w1.now).2 }
  else
    (HResp.internalError "Database insert failed", w1)

/-- Embeds `submit_article` (main.rs lines 137-240): the multipart parse
(which already writes uploads to disk), then validation and the inserts. -/
def submit_article (w : World) (fields : List Field) (artOk : Bool)
    (mediaOks : List Bool) : HResp × World :=
  submitDispatch (parseSubmit fields w).2 (parseSubmit fields w).1 artOk mediaOks

/-- Embeds `view_article` (main.rs lines 282-381), the data-access skeleton of the
page: `fetch_one` on the articles table; any error (including no such row) is
rendered as a 404 "Article not found". The media and comment fetches that
follow only feed rendering and swallow their errors into empty lists. -/
def view_article (w : World) (aid : Int) : HResp :=
  match w.db.findArticle aid with
  | none => HResp.notFound "Article not found"
  | some _ => HResp.ok

/-- Embeds `submit_comment` (main.rs lines 383-414): insert the comment row, then
update the parent article's `bump_time`; the two statements run back to back
on the pool with no transaction. `insOk`/`bumpOk` inject the two statements'
outcomes; the comment insert additionally fails on the (spec-modelled)
foreign-key violation when the article does not exist. -/
def submit_comment (w : World) (aid : Int) (text : String)
    (insOk bumpOk : Bool) : HResp × World :=
  if insOk then
    match w.db.insertComment aid text with
    | none => (HResp.internalError "Failed to store comment.", w)
    | some db1 =>
      if bumpOk then
        (HResp.found ("/articles/" ++ toString aid),
         { w with db := db1.bumpArticle aid w.now })
      else
        (HResp.internalError "Failed to bump article.", { w with db := db1 })
  else (HResp.internalError "Failed to store comment.", w)

/-- Embeds `delete_article` (main.rs lines 440-459): password gate, then
`DELETE FROM articles WHERE id = $1` (cascading per the spec-modelled
schema). `delOk` injects the delete statement's outcome. -/
def delete_article (w : World) (aid : Int) (password : String)
    (delOk : Bool) : HResp × World :=
  if password ≠ ADMIN_PASSWORD then
    (HResp.unauthorized "Incorrect password", w)
  else if delOk then
    (HResp.found "/articles", { w with db := w.db.deleteArticleCascade aid })
  else
    (HResp.internalError "Failed to delete article.", w)

/-- The owning-article lookup of `delete_comment` (main.rs lines 494-499):
`SELECT article_id FROM comments WHERE id = $1` with `.ok().flatten()`, which
turns both query errors (injected by `lookupOk = false`) and a missing row
into `None`. -/
def ownerLookup (w : World) (cid : Int) (lookupOk : Bool) : Option Int :=
  if lookupOk then (w.db.comments.find? (fun c => c.id == cid)).map (fun c => c.article_id)
  else none

/-- The redirect location computed from the resolved owner: the owning
article's page, or the listing when no owner could be determined. -/
def redirectTarget : Option Int → String
  | some a => "/articles/" ++ toString a
  | none => "/articles"

/-- Embeds `delete_comment` (main.rs lines 485-518): password gate, owner
lookup, comment delete, redirect. `delOk` injects the delete statement's
outcome. -/
def delete_comment (w : World) (cid : Int) (password : String)
    (lookupOk delOk : Bool) : HResp × World :=
  if password ≠ ADMIN_PASSWORD then
    (HResp.unauthorized "Incorrect password", w)
  else if delOk then
    (HResp.found (redirectTarget (ownerLookup w cid lookupOk)),
     { w with db := w.db.deleteComment cid })
  else
    (HResp.internalError "Failed to delete comment.", w)

/-- The `mode == "check"` block of `edit_article` (main.rs lines 621-678):
`fetch_one` the article (any error, a missing row included, becomes the 500
"Failed to fetch article"), `fetch_optional` its first media path (an error
becomes the 500 "Failed to fetch media"), then return the confirmation page.
No state is modified. -/
def editCheck (w1 : World) (aid : Int) (fetchOk mediaFetchOk : Bool) : HResp × World :=
  if fetchOk ∧ w1.db.articleExists aid then
    if mediaFetchOk then (HResp.ok, w1)
    else (HResp.internalError "Failed to fetch media", w1)
  else (HResp.internalError "Failed to fetch article", w1)

/-- The media-replacement block of `edit_article`'s save branch (main.rs
lines 698-717), entered only when a replacement upload was collected:
`DELETE FROM article_media WHERE article_id = $1` then the insert of the new
reference, two statements with no transaction. `db1` is the database after
the preceding article-row update. -/
def editReplaceMedia (w1 : World) (aid : Int) (db1 : DB) (newPath : String)
    (delOk insOk : Bool) : HResp × World :=
  if delOk then
    if insOk then
      match (db1.deleteMediaFor aid).insertMedia aid newPath with
      | some db3 => (HResp.found ("/articles/" ++ toString aid), { w1 with db := db3 })
      | none => (HResp.internalError "Failed to store new media",
                 { w1 with db := db1.deleteMediaFor aid })
    else (HResp.internalError "Failed to store new media",
          { w1 with db := db1.deleteMediaFor aid })
  else (HResp.internalError "Failed to delete old media", { w1 with db := db1 })

/-- The `mode == "save"` block of `edit_article` (main.rs lines 679-722):
reject empty title or body, update the article row (title, body, bump_time),
then replace the media references only when a replacement upload was
collected. -/
def editSave (w1 : World) (aid : Int) (acc : EditAcc)
    (updOk delOk insOk : Bool) : HResp × World :=
  if acc.title.isEmpty || acc.body.isEmpty then
    (HResp.badRequest "Title and body are required", w1)
  else if updOk then
    match acc.newMedia with
    | none =>
      (HResp.found ("/articles/" ++ toString aid),
       { w1 with db := w1.db.updateArticle aid acc.title acc.body w1.now })
    | some newPath =>
      editReplaceMedia w1 aid (w1.db.updateArticle aid acc.title acc.body w1.now)
        newPath delOk insOk
  else (HResp.internalError "Failed to update article", w1)

/-- The post-parse body of `edit_article` (main.rs lines 616-725): password
gate first, then dispatch on `mode`; an unrecognized mode yields the 400
"Invalid mode" response. -/
def editDispatch (w1 : World) (aid : Int) (acc : EditAcc)
    (fetchOk mediaFetchOk updOk delOk insOk : Bool) : HResp × World :=
  if acc.password ≠ ADMIN_PASSWORD then
    (HResp.unauthorized "Incorrect password", w1)
  else if acc.mode = "check" then editCheck w1 aid fetchOk mediaFetchOk
  else if acc.mode = "save" then editSave w1 aid acc updOk delOk insOk
  else (HResp.badRequest "Invalid mode", w1)

/-- Embeds `edit_article` (main.rs lines 546-726): parse the multipart body
(which already writes a non-empty replacement upload to disk), then password
gate and mode dispatch. `fetchOk`/`mediaFetchOk`/`updOk`/`delOk`/`insOk`
inject the outcomes of the five statements in source order. -/
def edit_article (w : World) (aid : Int) (fields : List Field)
    (fetchOk mediaFetchOk updOk delOk insOk : Bool) : HResp × World :=
  editDispatch (parseEdit fields w).2 aid (parseEdit fields w).1
    fetchOk mediaFetchOk updOk delOk insOk

/-- Embeds `list_articles` (main.rs lines 242-280): a read-only listing page. -/
def list_articles (_w : World) (queryOk : Bool) : HResp :=
  if queryOk then HResp.ok else HResp.internalError "Failed to load articles"

/-! ## Requests

The mutating and reading routes of the application, with their injected
database outcomes, as one inductive so that "after any operation completes"
can be quantified over. The GET form pages (`new_article_form`,
`delete_article_form`, `delete_comment_form`, `edit_article_form`) are pure
HTML and touch no state; they are represented by `formPage`. -/

inductive Request where
  | formPage : Request
  | submitArticleReq (fields : List Field) (artOk : Bool) (mediaOks : List Bool) : Request
  | listArticlesReq (queryOk : Bool) : Request
  | viewArticleReq (aid : Int) : Request
  | submitCommentReq (aid : Int) (text : String) (insOk bumpOk : Bool) : Request
  | deleteArticleReq (aid : Int) (password : String) (delOk : Bool) : Request
  | deleteCommentReq (cid : Int) (password : String) (lookupOk delOk : Bool) : Request
  | editArticleReq (aid : Int) (fields : List Field)
      (fetchOk mediaFetchOk updOk delOk insOk : Bool) : Request

/-- Dispatch of one inbound request to its handler (the route table of
`main`, main.rs lines 69-91). -/
def handle : Request → World → HResp × World
  | .formPage, w => (HResp.ok, w)
  | .submitArticleReq fields artOk mediaOks, w => submit_article w fields artOk mediaOks
  | .listArticlesReq queryOk, w => (list_articles w queryOk, w)
  | .viewArticleReq aid, w => (view_article w aid, w)
  | .submitCommentReq aid text insOk bumpOk, w => submit_comment w aid text insOk bumpOk
  | .deleteArticleReq aid password delOk, w => delete_article w aid password delOk
  | .deleteCommentReq cid password lookupOk delOk, w => delete_comment w cid password lookupOk delOk
  | .editArticleReq aid fields a b c d e, w => edit_article w aid fields a b c d e

/-! ## Path safety

A stored reference of the form `root ++ "/" ++ comp` stays inside `root`
exactly when the final component is a real file name: non-empty, not one of
the traversal components `.` and `..`, and free of path separators. -/

/-- The component names a file strictly inside its directory: non-empty, not
`.` or `..`, and containing no `/` or `\` separator. -/
def isSafeComponent (comp : String) : Prop :=
  comp ≠ "" ∧ comp ≠ "." ∧ comp ≠ ".." ∧ ∀ c ∈ comp.data, c ≠ '/' ∧ c ≠ '\\'

instance (comp : String) : Decidable (isSafeComponent comp) := by
  unfold isSafeComponent; infer_instance

/-! ## Concrete states used by witnesses and counterexamples -/

/-- An empty store at clock value 100. -/
def emptyWorld : World :=
  { db := { articles := [], article_media := [], comments := [],
            nextArticleId := 1, nextCommentId := 1 },
    files := [], now := 100 }

/-- A store holding one article (id 1, bumped at 50) with one media reference,
at clock value 100. -/
def oneArticleWorld : World :=
  { db := { articles := [⟨1, "t", "b", 50⟩],
            article_media := [⟨1, "/uploads/article_old.png"⟩],
            comments := [], nextArticleId := 2, nextCommentId := 1 },
    files := ["./uploads/article_old.png"], now := 100 }

/-! ## Lemmas: the multipart folds touch only the file store -/

theorem writeFile_db (w : World) (p : String) : (writeFile w p).db = w.db := rfl

theorem writeFile_now (w : World) (p : String) : (writeFile w p).now = w.now := rfl

/-- The edit-form fold never touches the database or the clock. -/
theorem editFold_db_now : ∀ (fs : List Field) (acc : EditAcc) (w : World),
    ((editFold fs acc w).2).db = w.db ∧ ((editFold fs acc w).2).now = w.now
  | [], _, _ => ⟨rfl, rfl⟩
  | f :: fs, acc, w => by
    rw [editFold]
    repeat' split
    all_goals exact editFold_db_now fs _ _

/-- The submit-form fold never touches the database or the clock. -/
theorem submitFold_db_now : ∀ (fs : List Field) (acc : SubmitAcc) (w : World),
    ((submitFold fs acc w).2).db = w.db ∧ ((submitFold fs acc w).2).now = w.now
  | [], _, _ => ⟨rfl, rfl⟩
  | f :: fs, acc, w => by
    rw [submitFold]
    repeat' split
    all_goals exact submitFold_db_now fs _ _

/-- The submit-form fold only ever appends to the collected media paths. -/
theorem submitFold_paths_mono : ∀ (fs : List Field) (acc : SubmitAcc) (w : World),
    ∃ l, ((submitFold fs acc w).1).media_paths = acc.media_paths ++ l
  | [], acc, _ => ⟨[], by simp [submitFold]⟩
  | f :: fs, acc, w => by
    by_cases h1 : f.name = "title"
    · rw [submitFold, if_pos h1]; exact submitFold_paths_mono fs _ _
    by_cases h2 : f.name = "body"
    · rw [submitFold, if_neg h1, if_pos h2]; exact submitFold_paths_mono fs _ _
    by_cases h3 : f.name = "media"
    · rw [submitFold, if_neg h1, if_neg h2, if_pos h3]
      cases hf : f.filename with
      | none => exact submitFold_paths_mono fs _ _
      | some fname =>
        obtain ⟨l, hl⟩ := submitFold_paths_mono fs
          { acc with media_paths := acc.media_paths ++ [storedMediaRef fname] }
          (writeFile w (uploadDiskPath fname))
        exact ⟨storedMediaRef fname :: l, by simpa using hl⟩
    · rw [submitFold, if_neg h1, if_neg h2, if_neg h3]
      exact submitFold_paths_mono fs _ _

/-- When the fold collected no media path, no field carried a filename, so no
file was written either: the world is returned unchanged. -/
theorem submitFold_no_media : ∀ (fs : List Field) (acc : SubmitAcc) (w : World),
    ((submitFold fs acc w).1).media_paths = [] → (submitFold fs acc w).2 = w
  | [], _, _, _ => rfl
  | f :: fs, acc, w, h => by
    by_cases h1 : f.name = "title"
    · rw [submitFold, if_pos h1] at h ⊢; exact submitFold_no_media fs _ _ h
    by_cases h2 : f.name = "body"
    · rw [submitFold, if_neg h1, if_pos h2] at h ⊢; exact submitFold_no_media fs _ _ h
    by_cases h3 : f.name = "media"
    · rw [submitFold, if_neg h1, if_neg h2, if_pos h3] at h ⊢
      cases hf : f.filename with
      | none => rw [hf] at h; exact submitFold_no_media fs _ _ h
      | some fname =>
        rw [hf] at h
        have h' : ((submitFold fs
            { acc with media_paths := acc.media_paths ++ [storedMediaRef fname] }
            (writeFile w (uploadDiskPath fname))).1).media_paths = [] := h
        obtain ⟨l, hl⟩ := submitFold_paths_mono fs
          { acc with media_paths := acc.media_paths ++ [storedMediaRef fname] }
          (writeFile w (uploadDiskPath fname))
        rw [h'] at hl
        simp at hl
    · rw [submitFold, if_neg h1, if_neg h2, if_neg h3] at h ⊢
      exact submitFold_no_media fs _ _ h

/-- The submit parse phase touches neither database nor clock. -/
theorem parseSubmit_db (fields : List Field) (w : World) :
    ((parseSubmit fields w).2).db = w.db ∧ ((parseSubmit fields w).2).now = w.now :=
  submitFold_db_now fields ⟨"", "", []⟩ w

/-- The edit parse phase touches neither database nor clock. -/
theorem parseEdit_db (fields : List Field) (w : World) :
    ((parseEdit fields w).2).db = w.db ∧ ((parseEdit fields w).2).now = w.now :=
  editFold_db_now fields ⟨"", "", "", "", none⟩ w

/-! ## Lemmas: referential integrity of the row-level operations -/

theorem any_id_map (l : List DbArticle) (g : DbArticle → DbArticle)
    (hg : ∀ a, (g a).id = a.id) (x : Int) :
    ((l.map g).any fun a => a.id == x) = (l.any fun a => a.id == x) := by
  induction l with
  | nil => rfl
  | cons a l ih => simp [List.any_cons, ih, hg]

/-- Bumping an article's timestamp changes no article id. -/
theorem articleExists_bump (db : DB) (aid : Int) (ts : Int) (x : Int) :
    (db.bumpArticle aid ts).articleExists x = db.articleExists x := by
  refine any_id_map _ _ (fun a => ?_) _
  by_cases h : a.id == aid <;> simp [h]

/-- Updating an article's title/body/timestamp changes no article id. -/
theorem articleExists_update (db : DB) (aid : Int) (t b : String) (ts : Int) (x : Int) :
    (db.updateArticle aid t b ts).articleExists x = db.articleExists x := by
  refine any_id_map _ _ (fun a => ?_) _
  by_cases h : a.id == aid <;> simp [h]

/-- Appending a fresh article row preserves existence of every article. -/
theorem articleExists_insertArticle (db : DB) (t b : String) (ts : Int) (x : Int)
    (h : db.articleExists x = true) :
    ((db.insertArticle t b ts).2).articleExists x = true := by
  simp only [DB.insertArticle, DB.articleExists, List.any_append] at *
  simp [h]

theorem noOrphans_insertArticle (db : DB) (t b : String) (ts : Int)
    (h : db.noOrphans) : ((db.insertArticle t b ts).2).noOrphans := by
  obtain ⟨hm, hc⟩ := h
  exact ⟨fun m hmem => articleExists_insertArticle db t b ts _ (hm m hmem),
         fun c hmem => articleExists_insertArticle db t b ts _ (hc c hmem)⟩

theorem noOrphans_insertMedia (db db' : DB) (aid : Int) (p : String)
    (h : db.insertMedia aid p = some db') (hno : db.noOrphans) : db'.noOrphans := by
  unfold DB.insertMedia at h
  split at h
  · next hguard =>
    cases h
    obtain ⟨hm, hc⟩ := hno
    refine ⟨fun m hmem => ?_, fun c hmem => hc c hmem⟩
    rcases List.mem_append.1 hmem with h1 | h1
    · exact hm m h1
    · simp only [List.mem_singleton] at h1
      subst h1
      exact hguard
  · exact absurd h (by simp)

theorem noOrphans_insertComment (db db' : DB) (aid : Int) (text : String)
    (h : db.insertComment aid text = some db') (hno : db.noOrphans) : db'.noOrphans := by
  unfold DB.insertComment at h
  split at h
  · next hguard =>
    cases h
    obtain ⟨hm, hc⟩ := hno
    refine ⟨fun m hmem => hm m hmem, fun c hmem => ?_⟩
    rcases List.mem_append.1 hmem with h1 | h1
    · exact hc c h1
    · simp only [List.mem_singleton] at h1
      subst h1
      exact hguard
  · exact absurd h (by simp)

theorem noOrphans_bump (db : DB) (aid ts : Int) (h : db.noOrphans) :
    (db.bumpArticle aid ts).noOrphans := by
  obtain ⟨hm, hc⟩ := h
  refine ⟨fun m hmem => ?_, fun c hmem => ?_⟩
  · rw [articleExists_bump]; exact hm m hmem
  · rw [articleExists_bump]; exact hc c hmem

theorem noOrphans_update (db : DB) (aid : Int) (t b : String) (ts : Int)
    (h : db.noOrphans) : (db.updateArticle aid t b ts).noOrphans := by
  obtain ⟨hm, hc⟩ := h
  refine ⟨fun m hmem => ?_, fun c hmem => ?_⟩
  · rw [articleExists_update]; exact hm m hmem
  · rw [articleExists_update]; exact hc c hmem

theorem noOrphans_deleteArticleCascade (db : DB) (aid : Int) (h : db.noOrphans) :
    (db.deleteArticleCascade aid).noOrphans := by
  obtain ⟨hm, hc⟩ := h
  constructor
  · intro m hmem
    simp only [DB.deleteArticleCascade, List.mem_filter] at hmem
    obtain ⟨hmem, hne⟩ := hmem
    have hex := hm m hmem
    simp only [DB.articleExists, List.any_eq_true] at hex ⊢
    obtain ⟨a, ha, hid⟩ := hex
    refine ⟨a, List.mem_filter.2 ⟨ha, ?_⟩, hid⟩
    simp only [beq_iff_eq] at hid
    simpa [hid] using hne
  · intro c hmem
    simp only [DB.deleteArticleCascade, List.mem_filter] at hmem
    obtain ⟨hmem, hne⟩ := hmem
    have hex := hc c hmem
    simp only [DB.articleExists, List.any_eq_true] at hex ⊢
    obtain ⟨a, ha, hid⟩ := hex
    refine ⟨a, List.mem_filter.2 ⟨ha, ?_⟩, hid⟩
    simp only [beq_iff_eq] at hid
    simpa [hid] using hne

theorem noOrphans_deleteMediaFor (db : DB) (aid : Int) (h : db.noOrphans) :
    (db.deleteMediaFor aid).noOrphans := by
  obtain ⟨hm, hc⟩ := h
  refine ⟨fun m hmem => ?_, fun c hmem => hc c hmem⟩
  exact hm m (List.mem_filter.1 hmem).1

theorem noOrphans_deleteComment (db : DB) (cid : Int) (h : db.noOrphans) :
    (db.deleteComment cid).noOrphans := by
  obtain ⟨hm, hc⟩ := h
  refine ⟨fun m hmem => hm m hmem, fun c hmem => ?_⟩
  exact hc c (List.mem_filter.1 hmem).1

/-- The media insert loop of `submit_article` preserves referential
integrity whatever rows it manages to insert before stopping. -/
theorem noOrphans_insertMediaLoop (aid : Int) :
    ∀ (paths : List String) (oks : List Bool) (w : World),
    w.db.noOrphans → (((insertMediaLoop aid paths oks w).2).db).noOrphans
  | [], _, _, h => h
  | p :: rest, oks, w, h => by
    rw [insertMediaLoop]
    split
    · cases hins : w.db.insertMedia aid p with
      | none => simpa [hins] using h
      | some db1 =>
        have h1 := noOrphans_insertMedia w.db db1 aid p hins h
        simpa [hins] using noOrphans_insertMediaLoop aid rest oks.tail _ h1
    · exact h

/-! ## Lemmas: every handler preserves referential integrity -/

theorem noOrphans_submitDispatch (w1 : World) (acc : SubmitAcc)
    (artOk : Bool) (mediaOks : List Bool) (h : w1.db.noOrphans) :
    (((submitDispatch w1 acc artOk mediaOks).2).db).noOrphans := by
  unfold submitDispatch
  split
  · exact h
  split
  · exact noOrphans_insertMediaLoop _ _ _ _ (noOrphans_insertArticle _ _ _ _ h)
  · exact h

theorem noOrphans_submit_article (w : World) (fields : List Field)
    (artOk : Bool) (mediaOks : List Bool) (h : w.db.noOrphans) :
    (((submit_article w fields artOk mediaOks).2).db).noOrphans := by
  unfold submit_article
  apply noOrphans_submitDispatch
  rw [(parseSubmit_db fields w).1]
  exact h

theorem noOrphans_submit_comment (w : World) (aid : Int) (text : String)
    (insOk bumpOk : Bool) (h : w.db.noOrphans) :
    (((submit_comment w aid text insOk bumpOk).2).db).noOrphans := by
  unfold submit_comment
  split
  · cases hins : w.db.insertComment aid text with
    | none => simpa [hins] using h
    | some db1 =>
      have h1 := noOrphans_insertComment w.db db1 aid text hins h
      cases bumpOk with
      | true => simpa [hins] using noOrphans_bump db1 aid w.now h1
      | false => simpa [hins] using h1
  · exact h

theorem noOrphans_delete_article (w : World) (aid : Int) (password : String)
    (delOk : Bool) (h : w.db.noOrphans) :
    (((delete_article w aid password delOk).2).db).noOrphans := by
  unfold delete_article
  split
  · exact h
  split
  · exact noOrphans_deleteArticleCascade w.db aid h
  · exact h

theorem noOrphans_delete_comment (w : World) (cid : Int) (password : String)
    (lookupOk delOk : Bool) (h : w.db.noOrphans) :
    (((delete_comment w cid password lookupOk delOk).2).db).noOrphans := by
  unfold delete_comment
  split
  · exact h
  split
  · exact noOrphans_deleteComment w.db cid h
  · exact h

theorem noOrphans_editReplaceMedia (w1 : World) (aid : Int) (db1 : DB)
    (np : String) (delOk insOk : Bool) (h : db1.noOrphans) :
    (((editReplaceMedia w1 aid db1 np delOk insOk).2).db).noOrphans := by
  unfold editReplaceMedia
  split
  · split
    · cases hins : (db1.deleteMediaFor aid).insertMedia aid np with
      | none => simpa [hins] using noOrphans_deleteMediaFor db1 aid h
      | some db3 =>
        simpa [hins] using
          noOrphans_insertMedia _ db3 aid np hins (noOrphans_deleteMediaFor db1 aid h)
    · exact noOrphans_deleteMediaFor db1 aid h
  · exact h

theorem noOrphans_editSave (w1 : World) (aid : Int) (acc : EditAcc)
    (updOk delOk insOk : Bool) (h : w1.db.noOrphans) :
    (((editSave w1 aid acc updOk delOk insOk).2).db).noOrphans := by
  unfold editSave
  split
  · exact h
  split
  · cases hnm : acc.newMedia with
    | none => simpa [hnm] using noOrphans_update w1.db aid acc.title acc.body w1.now h
    | some np =>
      simpa [hnm] using
        noOrphans_editReplaceMedia w1 aid _ np delOk insOk
          (noOrphans_update w1.db aid acc.title acc.body w1.now h)
  · exact h

theorem noOrphans_editDispatch (w1 : World) (aid : Int) (acc : EditAcc)
    (fetchOk mediaFetchOk updOk delOk insOk : Bool) (h : w1.db.noOrphans) :
    (((editDispatch w1 aid acc fetchOk mediaFetchOk updOk delOk insOk).2).db).noOrphans := by
  unfold editDispatch
  split
  · exact h
  split
  · unfold editCheck
    split
    · split
      · exact h
      · exact h
    · exact h
  split
  · exact noOrphans_editSave w1 aid acc updOk delOk insOk h
  · exact h

theorem noOrphans_edit_article (w : World) (aid : Int) (fields : List Field)
    (fetchOk mediaFetchOk updOk delOk insOk : Bool) (h : w.db.noOrphans) :
    (((edit_article w aid fields fetchOk mediaFetchOk updOk delOk insOk).2).db).noOrphans := by
  unfold edit_article
  apply noOrphans_editDispatch
  rw [(parseEdit_db fields w).1]
  exact h

/-- Any request of the application, completing in any injected-failure
scenario, preserves referential integrity of the store. -/
theorem noOrphans_handle (r : Request) (w : World) (h : w.db.noOrphans) :
    (((handle r w).2).db).noOrphans := by
  cases r with
  | formPage => exact h
  | submitArticleReq fields artOk mediaOks => exact noOrphans_submit_article w fields artOk mediaOks h
  | listArticlesReq queryOk => exact h
  | viewArticleReq aid => exact h
  | submitCommentReq aid text insOk bumpOk => exact noOrphans_submit_comment w aid text insOk bumpOk h
  | deleteArticleReq aid password delOk => exact noOrphans_delete_article w aid password delOk h
  | deleteCommentReq cid password lookupOk delOk =>
      exact noOrphans_delete_comment w cid password lookupOk delOk h
  | editArticleReq aid fields a b c d e => exact noOrphans_edit_article w aid fields a b c d e h

/-! ## Lemmas: sanitization confines stored references to the upload root -/

theorem mem_truncateBytes {c : Char} : ∀ (b : Nat) (l : List Char),
    c ∈ truncateBytes b l → c ∈ l
  | _, [], h => by simp [truncateBytes] at h
  | b, x :: xs, h => by
    rw [truncateBytes] at h
    split at h
    · rcases List.mem_cons.1 h with h | h
      · exact h ▸ List.mem_cons_self x xs
      · exact List.mem_cons_of_mem x (mem_truncateBytes _ xs h)
    · simp at h

/-- Every character surviving sanitization is neither an illegal nor a
control character. -/
theorem sanitize_chars (fname : String) :
    ∀ c ∈ (sanitize fname).data, (isIllegalChar c || isControlChar c) = false := by
  intro c hc
  unfold sanitize at hc
  simp only at hc
  have h1 : c ∈ (if (fname.data.filter fun c => !(isIllegalChar c || isControlChar c)) ≠ [] ∧
      ((fname.data.filter fun c => !(isIllegalChar c || isControlChar c)).all fun c => c == '.')
      then [] else fname.data.filter fun c => !(isIllegalChar c || isControlChar c)) :=
    mem_truncateBytes 255 _ hc
  have h2 : c ∈ fname.data.filter fun c => !(isIllegalChar c || isControlChar c) := by
    split at h1
    · simp at h1
    · exact h1
  have := (List.mem_filter.1 h2).2
  simpa using this

/-- The sanitized name contains no path separator. -/
theorem sanitize_no_sep (fname : String) :
    ∀ c ∈ (sanitize fname).data, c ≠ '/' ∧ c ≠ '\\' := by
  intro c hc
  have h := sanitize_chars fname c hc
  constructor
  · intro hd; subst hd; simp [isIllegalChar] at h
  · intro hd; subst hd; simp [isIllegalChar] at h

/-- The file-name component `article_ ++ sanitized` is safe: non-empty, not a
traversal component, and separator-free. -/
theorem safeComponent_article (fname : String) :
    isSafeComponent ("article_" ++ sanitize fname) := by
  have hdata : ("article_" ++ sanitize fname).data = "article_".data ++ (sanitize fname).data :=
    String.data_append _ _
  have hlen8 : ("article_" : String).data.length = 8 := by decide
  refine ⟨?_, ?_, ?_, ?_⟩
  · intro h
    have hd := congrArg String.data h
    rw [hdata] at hd
    have hlen := congrArg List.length hd
    rw [List.length_append, hlen8,
      show ("" : String).data.length = 0 from by decide] at hlen
    omega
  · intro h
    have hd := congrArg String.data h
    rw [hdata] at hd
    have hlen := congrArg List.length hd
    rw [List.length_append, hlen8,
      show ("." : String).data.length = 1 from by decide] at hlen
    omega
  · intro h
    have hd := congrArg String.data h
    rw [hdata] at hd
    have hlen := congrArg List.length hd
    rw [List.length_append, hlen8,
      show (".." : String).data.length = 2 from by decide] at hlen
    omega
  · intro c hc
    rw [hdata] at hc
    rcases List.mem_append.1 hc with h | h
    · exact (show ∀ x ∈ ("article_" : String).data, x ≠ '/' ∧ x ≠ '\\' from by decide) c h
    · exact sanitize_no_sep fname c h

theorem storedMediaRef_split (fname : String) :
    storedMediaRef fname = "/uploads/" ++ ("article_" ++ sanitize fname) := by
  unfold storedMediaRef
  rw [← String.append_assoc]
  rw [show ("/uploads/" ++ "article_" : String) = "/uploads/article_" from by decide]

theorem uploadDiskPath_split (fname : String) :
    uploadDiskPath fname = "./uploads/" ++ ("article_" ++ sanitize fname) := by
  unfold uploadDiskPath
  rw [← String.append_assoc]
  rw [show ("./uploads/" ++ "article_" : String) = "./uploads/article_" from by decide]

/-! ## Lemmas: empty uploads and frame conditions of the edit handler -/

/-- Restatement of `submitFold_no_media` through `parseSubmit`. -/
theorem parseSubmit_no_media (fields : List Field) (w : World)
    (h : ((parseSubmit fields w).1).media_paths = []) :
    (parseSubmit fields w).2 = w :=
  submitFold_no_media fields ⟨"", "", []⟩ w h

/-- When every `media` field carries an empty payload, the edit fold collects
no replacement upload and writes no file. -/
theorem editFold_no_media : ∀ (fs : List Field) (acc : EditAcc) (w : World),
    (∀ f ∈ fs, f.name = "media" → f.value = "") →
    ((editFold fs acc w).1).newMedia = acc.newMedia ∧ (editFold fs acc w).2 = w
  | [], _, _, _ => ⟨rfl, rfl⟩
  | f :: fs, acc, w, h => by
    have hfs : ∀ g ∈ fs, g.name = "media" → g.value = "" :=
      fun g hg => h g (List.mem_cons_of_mem f hg)
    by_cases h1 : f.name = "password"
    · rw [editFold, if_pos h1]; exact editFold_no_media fs _ _ hfs
    by_cases h2 : f.name = "mode"
    · rw [editFold, if_neg h1, if_pos h2]; exact editFold_no_media fs _ _ hfs
    by_cases h3 : f.name = "title"
    · rw [editFold, if_neg h1, if_neg h2, if_pos h3]; exact editFold_no_media fs _ _ hfs
    by_cases h4 : f.name = "body"
    · rw [editFold, if_neg h1, if_neg h2, if_neg h3, if_pos h4]
      exact editFold_no_media fs _ _ hfs
    · have h5 : ¬(f.name = "media" ∧ f.value ≠ "") := by
        rintro ⟨hm, hv⟩
        exact hv (h f (List.mem_cons_self f fs) hm)
      rw [editFold, if_neg h1, if_neg h2, if_neg h3, if_neg h4, if_neg h5]
      exact editFold_no_media fs _ _ hfs

/-- The post-parse body of the edit handler never touches the file store. -/
theorem editDispatch_files (w1 : World) (aid : Int) (acc : EditAcc)
    (fetchOk mediaFetchOk updOk delOk insOk : Bool) :
    ((editDispatch w1 aid acc fetchOk mediaFetchOk updOk delOk insOk).2).files = w1.files := by
  unfold editDispatch editCheck editSave editReplaceMedia
  repeat' split
  all_goals rfl

/-- When no replacement upload was collected, the edit handler body leaves
every media reference untouched. -/
theorem editDispatch_media_none (w1 : World) (aid : Int) (acc : EditAcc)
    (fetchOk mediaFetchOk updOk delOk insOk : Bool) (hnm : acc.newMedia = none) :
    ((editDispatch w1 aid acc fetchOk mediaFetchOk updOk delOk insOk).2).db.article_media =
      w1.db.article_media := by
  unfold editDispatch editCheck editSave
  rw [hnm]
  repeat' split
  all_goals first
    | rfl
    | simp_all

/-! ## Claims -/

/-- C7: for every submitted filename, including ones containing
path-separator or traversal sequences, both the stored reference recorded in
the database and the on-disk write target are paths directly under the
configured upload root (with the fixed `article_` prefix): the final
component is non-empty, is not `.` or `..`, and contains no separator, so
the reference never escapes the root. -/
theorem c7_stored_reference_under_upload_root (fname : String) :
    (∃ comp, storedMediaRef fname = "/uploads/" ++ comp ∧ isSafeComponent comp) ∧
    (∃ comp, uploadDiskPath fname = "./uploads/" ++ comp ∧ isSafeComponent comp) :=
  ⟨⟨"article_" ++ sanitize fname, storedMediaRef_split fname, safeComponent_article fname⟩,
   ⟨"article_" ++ sanitize fname, uploadDiskPath_split fname, safeComponent_article fname⟩⟩

/-- C4: for every edit-workflow request, in whatever phase, whose supplied
credential does not match the configured secret, the handler answers
`Unauthorized` and the database — the article's title, body, bump_time and
media references included — is left unchanged. -/
theorem c4_edit_wrong_credential_unauthorized (w : World) (aid : Int)
    (fields : List Field) (fetchOk mediaFetchOk updOk delOk insOk : Bool)
    (h : ((parseEdit fields w).1).password ≠ ADMIN_PASSWORD) :
    (edit_article w aid fields fetchOk mediaFetchOk updOk delOk insOk).1 =
      HResp.unauthorized "Incorrect password" ∧
    ((edit_article w aid fields fetchOk mediaFetchOk updOk delOk insOk).2).db = w.db := by
  unfold edit_article editDispatch
  rw [if_pos h]
  exact ⟨rfl, (parseEdit_db fields w).1⟩

theorem c4_edit_wrong_credential_unauthorized_witness :
    (edit_article oneArticleWorld 1
       [⟨"password", none, "wrong"⟩, ⟨"mode", none, "check"⟩] true true true true true).1 =
      HResp.unauthorized "Incorrect password" ∧
    ((edit_article oneArticleWorld 1
       [⟨"password", none, "wrong"⟩, ⟨"mode", none, "check"⟩] true true true true true).2).db =
      oneArticleWorld.db :=
  c4_edit_wrong_credential_unauthorized oneArticleWorld 1
    [⟨"password", none, "wrong"⟩, ⟨"mode", none, "check"⟩] true true true true true
    (by decide)

/-- C9 counterexample: a request whose phase is `"frob"` (neither `check` nor
`save`) but whose credential is wrong terminates with `Unauthorized`, not
with the `InvalidRequest` (400 "Invalid mode") response the claim promises
for every unrecognized-phase request. -/
theorem c9_counterexample :
    ((parseEdit [⟨"password", none, "wrong"⟩, ⟨"mode", none, "frob"⟩] oneArticleWorld).1).mode =
      "frob" ∧
    ("frob" : String) ≠ "check" ∧ ("frob" : String) ≠ "save" ∧
    (edit_article oneArticleWorld 1
      [⟨"password", none, "wrong"⟩, ⟨"mode", none, "frob"⟩] true true true true true).1 =
      HResp.unauthorized "Incorrect password" ∧
    (edit_article oneArticleWorld 1
      [⟨"password", none, "wrong"⟩, ⟨"mode", none, "frob"⟩] true true true true true).1 ≠
      HResp.badRequest "Invalid mode" := by decide

/-- C9 (amended): for every edit-workflow request whose credential matches
the configured secret and whose phase value is neither `"check"` nor
`"save"`, the handler answers the 400 "Invalid mode" response — distinct
from the empty-field validation response and from every `Unauthorized`
response — and the database is left unchanged. -/
theorem c9_invalid_mode_rejected (w : World) (aid : Int) (fields : List Field)
    (fetchOk mediaFetchOk updOk delOk insOk : Bool)
    (hpw : ((parseEdit fields w).1).password = ADMIN_PASSWORD)
    (hc : ((parseEdit fields w).1).mode ≠ "check")
    (hs : ((parseEdit fields w).1).mode ≠ "save") :
    (edit_article w aid fields fetchOk mediaFetchOk updOk delOk insOk).1 =
      HResp.badRequest "Invalid mode" ∧
    ((edit_article w aid fields fetchOk mediaFetchOk updOk delOk insOk).2).db = w.db ∧
    HResp.badRequest "Invalid mode" ≠ HResp.badRequest "Title and body are required" ∧
    (∀ s, HResp.badRequest "Invalid mode" ≠ HResp.unauthorized s) := by
  unfold edit_article editDispatch
  rw [if_neg (by simp [hpw]), if_neg hc, if_neg hs]
  refine ⟨rfl, (parseEdit_db fields w).1, by decide, fun s h => by cases h⟩

theorem c9_invalid_mode_rejected_witness :
    (edit_article oneArticleWorld 1
      [⟨"password", none, "changeme"⟩, ⟨"mode", none, "frob"⟩] true true true true true).1 =
      HResp.badRequest "Invalid mode" ∧
    ((edit_article oneArticleWorld 1
      [⟨"password", none, "changeme"⟩, ⟨"mode", none, "frob"⟩] true true true true true).2).db =
      oneArticleWorld.db ∧
    HResp.badRequest "Invalid mode" ≠ HResp.badRequest "Title and body are required" ∧
    (∀ s, HResp.badRequest "Invalid mode" ≠ HResp.unauthorized s) :=
  c9_invalid_mode_rejected oneArticleWorld 1
    [⟨"password", none, "changeme"⟩, ⟨"mode", none, "frob"⟩] true true true true true
    (by decide) (by decide) (by decide)

/-- C1 counterexample: a create request whose parsed title and body are both
empty but which carries a media file succeeds (redirect to `/articles`) and
creates an Article row with empty title and body — the handler validates only
the media paths, not title or body. -/
theorem c1_counterexample :
    ((parseSubmit [⟨"media", some "a.png", "x"⟩] emptyWorld).1).title = "" ∧
    ((parseSubmit [⟨"media", some "a.png", "x"⟩] emptyWorld).1).body = "" ∧
    (submit_article emptyWorld [⟨"media", some "a.png", "x"⟩] true []).1 =
      HResp.found "/articles" ∧
    ((submit_article emptyWorld [⟨"media", some "a.png", "x"⟩] true []).2).db.articles =
      [⟨1, "", "", 100⟩] := by decide

/-- C1 (amended): for every create request whose multipart body yields no
media path, the operation fails with the validation rejection "Media file is
required" and the state — in particular, the Article table — is returned
unchanged. Empty title or body are not rejected. -/
theorem c1_create_requires_media (w : World) (fields : List Field)
    (artOk : Bool) (mediaOks : List Bool)
    (h : ((parseSubmit fields w).1).media_paths = []) :
    submit_article w fields artOk mediaOks =
      (HResp.badRequest "Media file is required", w) := by
  unfold submit_article submitDispatch
  rw [if_pos (by rw [h]; rfl), parseSubmit_no_media fields w h]

theorem c1_create_requires_media_witness :
    submit_article emptyWorld [⟨"title", none, "T"⟩, ⟨"body", none, "B"⟩] true [] =
      (HResp.badRequest "Media file is required", emptyWorld) :=
  c1_create_requires_media emptyWorld [⟨"title", none, "T"⟩, ⟨"body", none, "B"⟩] true []
    (by decide)

/-- C2 counterexample: on a store holding article 1 and no comments, a
comment submission whose insert succeeds and whose bump update fails reports
a 500 error, yet the comment row persists — insert and bump are not atomic. -/
theorem c2_counterexample :
    oneArticleWorld.db.comments = [] ∧
    (submit_comment oneArticleWorld 1 "hi" true false).1 =
      HResp.internalError "Failed to bump article." ∧
    ((submit_comment oneArticleWorld 1 "hi" true false).2).db.comments =
      [⟨1, 1, "hi"⟩] := by decide

/-- C2 (amended): the comment insert and the parent article's bump are two
sequential statements with no transaction. When both succeed, both persist —
the comment row is appended and the parent row's bump_time is set to the
current clock; when the bump step fails after the insert succeeded, the
operation reports an error but the comment row persists and the articles
table (bump_time included) is unchanged. -/
theorem c2_comment_bump_not_atomic (w : World) (aid : Int) (text : String)
    (h : w.db.articleExists aid = true) :
    ((submit_comment w aid text true false).1 =
        HResp.internalError "Failed to bump article." ∧
     ((submit_comment w aid text true false).2).db.comments =
        w.db.comments ++ [⟨w.db.nextCommentId, aid, text⟩] ∧
     ((submit_comment w aid text true false).2).db.articles = w.db.articles) ∧
    ((submit_comment w aid text true true).1 =
        HResp.found ("/articles/" ++ toString aid) ∧
     ((submit_comment w aid text true true).2).db.comments =
        w.db.comments ++ [⟨w.db.nextCommentId, aid, text⟩] ∧
     ((submit_comment w aid text true true).2).db.articles =
        w.db.articles.map (fun a =>
          if a.id == aid then { a with bump_time := w.now } else a)) := by
  have hins : w.db.insertComment aid text =
      some { w.db with
              comments := w.db.comments ++ [⟨w.db.nextCommentId, aid, text⟩],
              nextCommentId := w.db.nextCommentId + 1 } := by
    unfold DB.insertComment
    rw [if_pos h]
  have e1 : submit_comment w aid text true false =
      (HResp.internalError "Failed to bump article.",
       { w with db := { w.db with
            comments := w.db.comments ++ [⟨w.db.nextCommentId, aid, text⟩],
            nextCommentId := w.db.nextCommentId + 1 } }) := by
    unfold submit_comment
    rw [hins]
    rfl
  have e2 : (submit_comment w aid text true true).1 =
        HResp.found ("/articles/" ++ toString aid) ∧
      ((submit_comment w aid text true true).2).db.comments =
        w.db.comments ++ [⟨w.db.nextCommentId, aid, text⟩] ∧
      ((submit_comment w aid text true true).2).db.articles =
        w.db.articles.map (fun a =>
          if a.id == aid then { a with bump_time := w.now } else a) := by
    unfold submit_comment
    rw [hins]
    exact ⟨rfl, rfl, rfl⟩
  exact ⟨⟨by rw [e1], by rw [e1], by rw [e1]⟩, e2⟩

theorem c2_comment_bump_not_atomic_witness :
    ((submit_comment oneArticleWorld 1 "hi" true false).1 =
        HResp.internalError "Failed to bump article." ∧
     ((submit_comment oneArticleWorld 1 "hi" true false).2).db.comments =
        oneArticleWorld.db.comments ++ [⟨oneArticleWorld.db.nextCommentId, 1, "hi"⟩] ∧
     ((submit_comment oneArticleWorld 1 "hi" true false).2).db.articles =
        oneArticleWorld.db.articles) ∧
    ((submit_comment oneArticleWorld 1 "hi" true true).1 =
        HResp.found ("/articles/" ++ toString (1 : Int)) ∧
     ((submit_comment oneArticleWorld 1 "hi" true true).2).db.comments =
        oneArticleWorld.db.comments ++ [⟨oneArticleWorld.db.nextCommentId, 1, "hi"⟩] ∧
     ((submit_comment oneArticleWorld 1 "hi" true true).2).db.articles =
        oneArticleWorld.db.articles.map (fun a =>
          if a.id == 1 then { a with bump_time := oneArticleWorld.now } else a)) :=
  c2_comment_bump_not_atomic oneArticleWorld 1 "hi" (by decide)

/-- C5 counterexample: a comment submission with empty text on an existing
article succeeds (redirect to the article's page) and stores the empty
comment — no `ValidationError` is raised for empty text. -/
theorem c5_counterexample :
    (submit_comment oneArticleWorld 1 "" true true).1 = HResp.found "/articles/1" ∧
    ((submit_comment oneArticleWorld 1 "" true true).2).db.comments =
      [⟨1, 1, ""⟩] := by decide

/-- C5 (amended): comment text is not validated (empty text is accepted and
stored); when the target article does not exist the insert fails at the
database (spec-modelled foreign key) and the handler reports the 500
"Failed to store comment." response — not `NotFound` — leaving the state
unchanged. -/
theorem c5_comment_missing_article_is_server_error (w : World) (aid : Int)
    (text : String) (insOk bumpOk : Bool)
    (h : w.db.articleExists aid = false) :
    submit_comment w aid text insOk bumpOk =
      (HResp.internalError "Failed to store comment.", w) := by
  have hins : w.db.insertComment aid text = none := by
    unfold DB.insertComment
    rw [if_neg (by simp [h])]
  unfold submit_comment
  cases insOk with
  | false => rfl
  | true => rw [hins]; rfl

theorem c5_comment_missing_article_is_server_error_witness :
    submit_comment oneArticleWorld 5 "hi" true true =
      (HResp.internalError "Failed to store comment.", oneArticleWorld) :=
  c5_comment_missing_article_is_server_error oneArticleWorld 5 "hi" true true (by decide)

/-- C3: a completed `delete_article` with the correct credential removes the
article — a subsequent `view_article` (get) answers `NotFound` — together
with all of its media references and all of its comments (cascade per the
spec-modelled schema); and no operation of the application, completing in any
injected-failure scenario, leaves a media reference or comment without an
existing parent article. -/
theorem c3_delete_cascades_and_no_orphans (w : World) (aid : Int) (r : Request)
    (hinv : w.db.noOrphans) :
    (view_article ((delete_article w aid ADMIN_PASSWORD true).2) aid =
        HResp.notFound "Article not found" ∧
     ((delete_article w aid ADMIN_PASSWORD true).2).db.mediaFor aid = [] ∧
     ((delete_article w aid ADMIN_PASSWORD true).2).db.commentsFor aid = []) ∧
    (((handle r w).2).db).noOrphans := by
  have e : delete_article w aid ADMIN_PASSWORD true =
      (HResp.found "/articles", { w with db := w.db.deleteArticleCascade aid }) := by
    unfold delete_article
    rw [if_neg (by simp)]
    rfl
  refine ⟨?_, noOrphans_handle r w hinv⟩
  rw [e]
  refine ⟨?_, ?_, ?_⟩
  · unfold view_article DB.findArticle
    have hfind : ((w.db.deleteArticleCascade aid).articles.find? fun a => a.id == aid) =
        none := by
      rw [List.find?_eq_none]
      intro a ha
      have hmem : a ∈ w.db.articles.filter fun a => !(a.id == aid) := ha
      simpa using (List.mem_filter.1 hmem).2
    rw [hfind]
  · unfold DB.mediaFor
    have hnil : ((w.db.deleteArticleCascade aid).article_media.filter
        fun m => m.article_id == aid) = [] := by
      rw [List.filter_eq_nil_iff]
      intro m hm
      have hmem : m ∈ w.db.article_media.filter fun m => !(m.article_id == aid) := hm
      simpa using (List.mem_filter.1 hmem).2
    rw [hnil]
    rfl
  · unfold DB.commentsFor
    rw [List.filter_eq_nil_iff]
    intro c hc
    have hmem : c ∈ w.db.comments.filter fun c => !(c.article_id == aid) := hc
    simpa using (List.mem_filter.1 hmem).2

theorem c3_delete_cascades_and_no_orphans_witness :
    (view_article ((delete_article oneArticleWorld 1 ADMIN_PASSWORD true).2) 1 =
        HResp.notFound "Article not found" ∧
     ((delete_article oneArticleWorld 1 ADMIN_PASSWORD true).2).db.mediaFor 1 = [] ∧
     ((delete_article oneArticleWorld 1 ADMIN_PASSWORD true).2).db.commentsFor 1 = []) ∧
    (((handle (Request.submitCommentReq 1 "hi" true true) oneArticleWorld).2).db).noOrphans :=
  c3_delete_cascades_and_no_orphans oneArticleWorld 1
    (Request.submitCommentReq 1 "hi" true true) (by decide)

/-- C8: a successful edit save that includes no new media upload leaves the
article's media references (and the comments) exactly as they were; only the
articles table changes, and only by rewriting the edited row's title, body
and bump_time. -/
theorem c8_save_without_media_preserves_media (w : World) (aid : Int)
    (fields : List Field)
    (hpw : ((parseEdit fields w).1).password = ADMIN_PASSWORD)
    (hmode : ((parseEdit fields w).1).mode = "save")
    (ht : ((parseEdit fields w).1).title.isEmpty = false)
    (hb : ((parseEdit fields w).1).body.isEmpty = false)
    (hnm : ((parseEdit fields w).1).newMedia = none) :
    (edit_article w aid fields true true true true true).1 =
      HResp.found ("/articles/" ++ toString aid) ∧
    ((edit_article w aid fields true true true true true).2).db.article_media =
      w.db.article_media ∧
    ((edit_article w aid fields true true true true true).2).db.comments =
      w.db.comments ∧
    ((edit_article w aid fields true true true true true).2).db.articles =
      w.db.articles.map (fun a =>
        if a.id == aid then
          { a with title := ((parseEdit fields w).1).title,
                   body := ((parseEdit fields w).1).body,
                   bump_time := w.now }
        else a) := by
  have hw : ((parseEdit fields w).2).db = w.db := (parseEdit_db fields w).1
  have hn : ((parseEdit fields w).2).now = w.now := (parseEdit_db fields w).2
  have e : edit_article w aid fields true true true true true =
      (HResp.found ("/articles/" ++ toString aid),
       { (parseEdit fields w).2 with
          db := ((parseEdit fields w).2).db.updateArticle aid
            ((parseEdit fields w).1).title ((parseEdit fields w).1).body
            ((parseEdit fields w).2).now }) := by
    unfold edit_article editDispatch editSave
    rw [if_neg (by simp [hpw]), if_neg (by rw [hmode]; decide), if_pos hmode,
        if_neg (by rw [ht, hb]; decide), hnm]
    rfl
  refine ⟨by rw [e], ?_, ?_, ?_⟩
  · rw [e]
    show ((parseEdit fields w).2).db.article_media = w.db.article_media
    rw [hw]
  · rw [e]
    show ((parseEdit fields w).2).db.comments = w.db.comments
    rw [hw]
  · rw [e]
    show ((parseEdit fields w).2).db.articles.map _ = _
    rw [hw, hn]

theorem c8_save_without_media_preserves_media_witness :
    (edit_article oneArticleWorld 1
      [⟨"password", none, "changeme"⟩, ⟨"mode", none, "save"⟩,
       ⟨"title", none, "T2"⟩, ⟨"body", none, "B2"⟩] true true true true true).1 =
      HResp.found ("/articles/" ++ toString (1 : Int)) ∧
    ((edit_article oneArticleWorld 1
      [⟨"password", none, "changeme"⟩, ⟨"mode", none, "save"⟩,
       ⟨"title", none, "T2"⟩, ⟨"body", none, "B2"⟩] true true true true true).2).db.article_media =
      oneArticleWorld.db.article_media ∧
    ((edit_article oneArticleWorld 1
      [⟨"password", none, "changeme"⟩, ⟨"mode", none, "save"⟩,
       ⟨"title", none, "T2"⟩, ⟨"body", none, "B2"⟩] true true true true true).2).db.comments =
      oneArticleWorld.db.comments ∧
    ((edit_article oneArticleWorld 1
      [⟨"password", none, "changeme"⟩, ⟨"mode", none, "save"⟩,
       ⟨"title", none, "T2"⟩, ⟨"body", none, "B2"⟩] true true true true true).2).db.articles =
      oneArticleWorld.db.articles.map (fun a =>
        if a.id == 1 then
          { a with
              title := ((parseEdit
                [⟨"password", none, "changeme"⟩, ⟨"mode", none, "save"⟩,
                 ⟨"title", none, "T2"⟩, ⟨"body", none, "B2"⟩] oneArticleWorld).1).title,
              body := ((parseEdit
                [⟨"password", none, "changeme"⟩, ⟨"mode", none, "save"⟩,
                 ⟨"title", none, "T2"⟩, ⟨"body", none, "B2"⟩] oneArticleWorld).1).body,
              bump_time := oneArticleWorld.now }
        else a) :=
  c8_save_without_media_preserves_media oneArticleWorld 1
    [⟨"password", none, "changeme"⟩, ⟨"mode", none, "save"⟩,
     ⟨"title", none, "T2"⟩, ⟨"body", none, "B2"⟩]
    (by decide) (by decide) (by decide) (by decide) (by decide)

/-- C6 counterexample: on an article holding one media reference, an edit
save with a new upload whose `DELETE` of the old references succeeds but
whose `INSERT` of the new one fails completes (with a 500 response) leaving
the article with zero media references — a reachable partial state the claim
says cannot exist. -/
theorem c6_counterexample :
    oneArticleWorld.db.mediaFor 1 = ["/uploads/article_old.png"] ∧
    (edit_article oneArticleWorld 1
      [⟨"password", none, "changeme"⟩, ⟨"mode", none, "save"⟩,
       ⟨"title", none, "T2"⟩, ⟨"body", none, "B2"⟩,
       ⟨"media", some "new.png", "x"⟩] true true true true false).1 =
      HResp.internalError "Failed to store new media" ∧
    ((edit_article oneArticleWorld 1
      [⟨"password", none, "changeme"⟩, ⟨"mode", none, "save"⟩,
       ⟨"title", none, "T2"⟩, ⟨"body", none, "B2"⟩,
       ⟨"media", some "new.png", "x"⟩] true true true true false).2).db.mediaFor 1 =
      [] := by decide

/-- C6 (amended): the media replacement of an edit save is two sequential
statements, not a transaction. When both succeed, every existing media
reference of the article is removed and exactly one reference to the new
file is inserted; but when the insert fails after the delete succeeded, the
operation completes with an error and the article is left with zero media
references. -/
theorem c6_media_replacement (w : World) (aid : Int) (fields : List Field)
    (np : String)
    (hpw : ((parseEdit fields w).1).password = ADMIN_PASSWORD)
    (hmode : ((parseEdit fields w).1).mode = "save")
    (ht : ((parseEdit fields w).1).title.isEmpty = false)
    (hb : ((parseEdit fields w).1).body.isEmpty = false)
    (hnm : ((parseEdit fields w).1).newMedia = some np)
    (hex : w.db.articleExists aid = true) :
    ((edit_article w aid fields true true true true true).1 =
        HResp.found ("/articles/" ++ toString aid) ∧
     ((edit_article w aid fields true true true true true).2).db.article_media =
        (w.db.article_media.filter fun m => !(m.article_id == aid)) ++ [⟨aid, np⟩]) ∧
    ((edit_article w aid fields true true true true false).1 =
        HResp.internalError "Failed to store new media" ∧
     ((edit_article w aid fields true true true true false).2).db.article_media =
        w.db.article_media.filter fun m => !(m.article_id == aid)) := by
  have hw : ((parseEdit fields w).2).db = w.db := (parseEdit_db fields w).1
  have hex1 : ((((parseEdit fields w).2).db.updateArticle aid
      ((parseEdit fields w).1).title ((parseEdit fields w).1).body
      ((parseEdit fields w).2).now).deleteMediaFor aid).articleExists aid = true := by
    show (((parseEdit fields w).2).db.updateArticle aid _ _ _).articleExists aid = true
    rw [articleExists_update, hw]
    exact hex
  have hins : ((((parseEdit fields w).2).db.updateArticle aid
      ((parseEdit fields w).1).title ((parseEdit fields w).1).body
      ((parseEdit fields w).2).now).deleteMediaFor aid).insertMedia aid np =
      some { ((((parseEdit fields w).2).db.updateArticle aid
                ((parseEdit fields w).1).title ((parseEdit fields w).1).body
                ((parseEdit fields w).2).now).deleteMediaFor aid) with
             article_media :=
               ((((parseEdit fields w).2).db.updateArticle aid
                   ((parseEdit fields w).1).title ((parseEdit fields w).1).body
                   ((parseEdit fields w).2).now).deleteMediaFor aid).article_media ++
                 [⟨aid, np⟩] } := by
    unfold DB.insertMedia
    rw [if_pos hex1]
  constructor
  · have estep : edit_article w aid fields true true true true true =
        editReplaceMedia (parseEdit fields w).2 aid
          (((parseEdit fields w).2).db.updateArticle aid
            ((parseEdit fields w).1).title ((parseEdit fields w).1).body
            ((parseEdit fields w).2).now) np true true := by
      unfold edit_article editDispatch editSave
      rw [if_neg (by simp [hpw]), if_neg (by rw [hmode]; decide), if_pos hmode,
          if_neg (by rw [ht, hb]; decide), hnm]
      rfl
    have efin : editReplaceMedia (parseEdit fields w).2 aid
        (((parseEdit fields w).2).db.updateArticle aid
          ((parseEdit fields w).1).title ((parseEdit fields w).1).body
          ((parseEdit fields w).2).now) np true true =
        (HResp.found ("/articles/" ++ toString aid),
         { (parseEdit fields w).2 with
            db := { ((((parseEdit fields w).2).db.updateArticle aid
                      ((parseEdit fields w).1).title ((parseEdit fields w).1).body
                      ((parseEdit fields w).2).now).deleteMediaFor aid) with
                    article_media :=
                      ((((parseEdit fields w).2).db.updateArticle aid
                          ((parseEdit fields w).1).title ((parseEdit fields w).1).body
                          ((parseEdit fields w).2).now).deleteMediaFor aid).article_media ++
                        [⟨aid, np⟩] } }) := by
      unfold editReplaceMedia
      rw [hins]
      rfl
    have e := estep.trans efin
    refine ⟨by rw [e], ?_⟩
    rw [e]
    show (((parseEdit fields w).2).db.article_media.filter fun m => !(m.article_id == aid))
        ++ [⟨aid, np⟩] = _
    rw [hw]
  · have estep : edit_article w aid fields true true true true false =
        editReplaceMedia (parseEdit fields w).2 aid
          (((parseEdit fields w).2).db.updateArticle aid
            ((parseEdit fields w).1).title ((parseEdit fields w).1).body
            ((parseEdit fields w).2).now) np true false := by
      unfold edit_article editDispatch editSave
      rw [if_neg (by simp [hpw]), if_neg (by rw [hmode]; decide), if_pos hmode,
          if_neg (by rw [ht, hb]; decide), hnm]
      rfl
    have efin : editReplaceMedia (parseEdit fields w).2 aid
        (((parseEdit fields w).2).db.updateArticle aid
          ((parseEdit fields w).1).title ((parseEdit fields w).1).body
          ((parseEdit fields w).2).now) np true false =
        (HResp.internalError "Failed to store new media",
         { (parseEdit fields w).2 with
            db := (((parseEdit fields w).2).db.updateArticle aid
                    ((parseEdit fields w).1).title ((parseEdit fields w).1).body
                    ((parseEdit fields w).2).now).deleteMediaFor aid }) := rfl
    have e := estep.trans efin
    refine ⟨by rw [e], ?_⟩
    rw [e]
    show ((parseEdit fields w).2).db.article_media.filter (fun m => !(m.article_id == aid)) = _
    rw [hw]

theorem c6_media_replacement_witness :
    ((edit_article oneArticleWorld 1
        [⟨"password", none, "changeme"⟩, ⟨"mode", none, "save"⟩,
         ⟨"title", none, "T2"⟩, ⟨"body", none, "B2"⟩,
         ⟨"media", some "new.png", "x"⟩] true true true true true).1 =
        HResp.found ("/articles/" ++ toString (1 : Int)) ∧
     ((edit_article oneArticleWorld 1
        [⟨"password", none, "changeme"⟩, ⟨"mode", none, "save"⟩,
         ⟨"title", none, "T2"⟩, ⟨"body", none, "B2"⟩,
         ⟨"media", some "new.png", "x"⟩] true true true true true).2).db.article_media =
        (oneArticleWorld.db.article_media.filter fun m => !(m.article_id == 1)) ++
          [⟨1, "/uploads/article_new.png"⟩]) ∧
    ((edit_article oneArticleWorld 1
        [⟨"password", none, "changeme"⟩, ⟨"mode", none, "save"⟩,
         ⟨"title", none, "T2"⟩, ⟨"body", none, "B2"⟩,
         ⟨"media", some "new.png", "x"⟩] true true true true false).1 =
        HResp.internalError "Failed to store new media" ∧
     ((edit_article oneArticleWorld 1
        [⟨"password", none, "changeme"⟩, ⟨"mode", none, "save"⟩,
         ⟨"title", none, "T2"⟩, ⟨"body", none, "B2"⟩,
         ⟨"media", some "new.png", "x"⟩] true true true true false).2).db.article_media =
        oneArticleWorld.db.article_media.filter fun m => !(m.article_id == 1)) :=
  c6_media_replacement oneArticleWorld 1
    [⟨"password", none, "changeme"⟩, ⟨"mode", none, "save"⟩,
     ⟨"title", none, "T2"⟩, ⟨"body", none, "B2"⟩,
     ⟨"media", some "new.png", "x"⟩] "/uploads/article_new.png"
    (by decide) (by decide) (by decide) (by decide) (by decide) (by decide)

/-- C10: an edit request whose `media` fields all carry empty payloads (the
form was submitted without choosing a file) collects no replacement upload,
writes no file to the upload directory, and — whatever the phase and
injected outcomes — leaves the file store and the article's media references
unchanged: an empty upload is treated the same as no upload. -/
theorem c10_empty_upload_is_no_upload (w : World) (aid : Int)
    (fields : List Field) (fetchOk mediaFetchOk updOk delOk insOk : Bool)
    (h : ∀ f ∈ fields, f.name = "media" → f.value = "") :
    ((parseEdit fields w).1).newMedia = none ∧
    ((parseEdit fields w).2).files = w.files ∧
    ((edit_article w aid fields fetchOk mediaFetchOk updOk delOk insOk).2).files =
      w.files ∧
    ((edit_article w aid fields fetchOk mediaFetchOk updOk delOk insOk).2).db.article_media =
      w.db.article_media := by
  obtain ⟨hnm, hweq⟩ := editFold_no_media fields ⟨"", "", "", "", none⟩ w h
  have hnm' : ((parseEdit fields w).1).newMedia = none := hnm
  have hweq' : (parseEdit fields w).2 = w := hweq
  refine ⟨hnm', by rw [hweq'], ?_, ?_⟩
  · unfold edit_article
    rw [editDispatch_files, hweq']
  · unfold edit_article
    rw [editDispatch_media_none _ _ _ _ _ _ _ _ hnm', hweq']

theorem c10_empty_upload_is_no_upload_witness :
    ((parseEdit
        [⟨"password", none, "changeme"⟩, ⟨"mode", none, "save"⟩,
         ⟨"title", none, "T2"⟩, ⟨"body", none, "B2"⟩,
         ⟨"media", some "new.png", ""⟩] oneArticleWorld).1).newMedia = none ∧
    ((parseEdit
        [⟨"password", none, "changeme"⟩, ⟨"mode", none, "save"⟩,
         ⟨"title", none, "T2"⟩, ⟨"body", none, "B2"⟩,
         ⟨"media", some "new.png", ""⟩] oneArticleWorld).2).files = oneArticleWorld.files ∧
    ((edit_article oneArticleWorld 1
        [⟨"password", none, "changeme"⟩, ⟨"mode", none, "save"⟩,
         ⟨"title", none, "T2"⟩, ⟨"body", none, "B2"⟩,
         ⟨"media", some "new.png", ""⟩] true true true true true).2).files =
      oneArticleWorld.files ∧
    ((edit_article oneArticleWorld 1
        [⟨"password", none, "changeme"⟩, ⟨"mode", none, "save"⟩,
         ⟨"title", none, "T2"⟩, ⟨"body", none, "B2"⟩,
         ⟨"media", some "new.png", ""⟩] true true true true true).2).db.article_media =
      oneArticleWorld.db.article_media :=
  c10_empty_upload_is_no_upload oneArticleWorld 1
    [⟨"password", none, "changeme"⟩, ⟨"mode", none, "save"⟩,
     ⟨"title", none, "T2"⟩, ⟨"body", none, "B2"⟩,
     ⟨"media", some "new.png", ""⟩] true true true true true (by decide)

end Articles
